import Mathlib

/-!
Verification of the warrant-bot watch subsystem against its specification.

The definitions below are a shallow embedding of the JavaScript source:

* `src/commands/watch.js` — the watch registry (`activeWatches`, a `Map`
  keyed by username), the scheduler (`startWatching` / `performCheck`),
  the retry wrapper (`checkWithRetry`), `stopWatch`, `loadWatches`,
  `initialize`, and the start-watch command handler (`execute`).
* `src/commands/stopwatch.js` — the stop-watch command handler.
* `src/utils/roblox-api.js` — `getRobloxUserId`, `checkRobloxStatus`
  (via `getPlayerPresence`), `checkRateLimit` and `RATE_LIMIT_MS`.

The `Map` of active watches is modelled as an association list of
`WatchData` records keyed by `username`, with JavaScript `Map` semantics
(`set` replaces in place or appends, `delete` filters, `has`/`get` compare
keys exactly).  Timestamps are milliseconds since the epoch as `Int`.
I/O effects (persisting the JSON snapshot, sending notifications, arming
`setTimeout` timers) are recorded as explicit result fields so theorems
can speak about them.
-/

namespace WarrantBot

/-- Interval constant from `watch.js` line 15: 1 minute when online. -/
def INTERVAL_ONLINE : Nat := 60000

/-- Interval constant from `watch.js` line 16: 10 minutes when offline. -/
def INTERVAL_OFFLINE : Nat := 600000

/-- `watch.js` line 17: max retries for failed checks. -/
def MAX_RETRIES : Nat := 3

/-- `watch.js` line 18: maximum watches allowed at once. -/
def MAX_CONCURRENT_WATCHES : Nat := 20

/-- `roblox-api.js` line 5: 5 seconds between requests per user. -/
def RATE_LIMIT_MS : Int := 5000

/-- One entry of the `activeWatches` map in `watch.js` (the persisted
fields; the transient `client` reference and `timeoutId` handle are not
part of the snapshot and are modelled by the scheduler's explicit
outputs). -/
structure WatchData where
  username : String
  robloxUserId : Nat
  startTime : Int
  endTime : Int
  wasOnline : Bool
  consecutiveErrors : Nat
deriving Repr, DecidableEq

/-- `activeWatches.get(u)` — JavaScript `Map.get`, exact key comparison. -/
def storeGet (s : List WatchData) (u : String) : Option WatchData :=
  s.find? (fun x => x.username == u)

/-- `activeWatches.has(u)` — JavaScript `Map.has`, exact key comparison. -/
def storeHas (s : List WatchData) (u : String) : Bool :=
  s.any (fun x => x.username == u)

/-- `activeWatches.set(w.username, w)` — JavaScript `Map.set`: replaces the
existing entry in place, or appends a new one. -/
def storeSet (s : List WatchData) (w : WatchData) : List WatchData :=
  if s.any (fun x => x.username == w.username) then
    s.map (fun x => if x.username == w.username then w else x)
  else
    s ++ [w]

/-- The in-place field mutations JavaScript performs through the aliased
`watchData` object: if the watch is in the map, the map entry now shows
the updated fields; nothing is inserted. -/
def storeUpdate (s : List WatchData) (w : WatchData) : List WatchData :=
  s.map (fun x => if x.username == w.username then w else x)

/-- `activeWatches.delete(u)` — JavaScript `Map.delete`. -/
def storeDelete (s : List WatchData) (u : String) : List WatchData :=
  s.filter (fun x => !(x.username == u))

theorem username_replace (w x : WatchData) :
    (if x.username == w.username then w else x).username = x.username := by
  by_cases h : (x.username == w.username) = true
  · have hx : x.username = w.username := by simpa using h
    rw [if_pos h, hx]
  · rw [if_neg h]

theorem storeHas_storeSet (s : List WatchData) (w : WatchData) :
    storeHas (storeSet s w) w.username = true := by
  unfold storeHas storeSet
  by_cases h : (s.any fun x => x.username == w.username) = true
  · rw [if_pos h, List.any_map]
    obtain ⟨x, hx, hxu⟩ := List.any_eq_true.mp h
    refine List.any_eq_true.mpr ⟨x, hx, ?_⟩
    show ((if x.username == w.username then w else x).username == w.username) = true
    rw [username_replace]
    exact hxu
  · rw [if_neg h]
    simp

theorem storeHas_storeUpdate (s : List WatchData) (w : WatchData) (u : String) :
    storeHas (storeUpdate s w) u = storeHas s u := by
  induction s with
  | nil => rfl
  | cons x s ih =>
    unfold storeUpdate storeHas at ih ⊢
    simp only [List.map_cons, List.any_cons, username_replace, ih]

theorem storeHas_storeDelete (s : List WatchData) (u : String) :
    storeHas (storeDelete s u) u = false := by
  induction s with
  | nil => rfl
  | cons x s ih =>
    unfold storeDelete storeHas at *
    by_cases h : (x.username == u) = true <;> simp [List.filter_cons, h, ih]

theorem storeGet_storeDelete (s : List WatchData) (u : String) :
    storeGet (storeDelete s u) u = none := by
  induction s with
  | nil => rfl
  | cons x s ih =>
    unfold storeDelete storeGet at *
    by_cases h : (x.username == u) = true <;> simp [List.filter_cons, List.find?_cons, h, ih]

theorem storeGet_map_replace (s : List WatchData) (w : WatchData) :
    storeGet (s.map (fun x => if x.username == w.username then w else x)) w.username =
      if s.any (fun x => x.username == w.username) then some w else none := by
  induction s with
  | nil => rfl
  | cons x s ih =>
    simp only [List.map_cons, List.any_cons]
    by_cases h : (x.username == w.username) = true
    · simp [storeGet, List.find?_cons, h]
    · simp only [h, if_neg, Bool.false_or]
      simpa [storeGet, List.find?_cons, h] using ih

theorem storeGet_append_single (s : List WatchData) (w : WatchData)
    (h : s.any (fun x => x.username == w.username) = false) :
    storeGet (s ++ [w]) w.username = some w := by
  induction s with
  | nil => simp [storeGet, List.find?_cons]
  | cons x s ih =>
    simp only [List.any_cons, Bool.or_eq_false_iff] at h
    simpa [storeGet, List.find?_cons, h.1] using ih h.2

theorem storeGet_storeSet (s : List WatchData) (w : WatchData) :
    storeGet (storeSet s w) w.username = some w := by
  unfold storeSet
  by_cases h : (s.any fun x => x.username == w.username) = true
  · rw [if_pos h, storeGet_map_replace, if_pos h]
  · rw [if_neg h]
    exact storeGet_append_single s w (by simpa using h)

theorem storeSet_length (s : List WatchData) (w : WatchData) :
    (storeSet s w).length ≤ s.length + 1 := by
  unfold storeSet
  by_cases h : s.any (fun x => x.username == w.username) <;> simp [h]

/-- One presence record from the remote presence endpoint
(`data.userPresences[0]`).  Fields the code never reads are omitted;
JavaScript-truthiness tests on `lastLocation`, `placeId`, `universeId` and
`rootPlaceId` are modelled with `Option` (`none` = absent). -/
structure Presence where
  userPresenceType : Nat
  lastLocation : Option String
  universeId : Option Nat
  placeId : Option Nat
  rootPlaceId : Option Nat
deriving Repr, DecidableEq

/-- The status object `checkRobloxStatus` returns (`roblox-api.js`):
`online` is `true`/`false`/`null`, hence `Option Bool` with `none` for
`null`. -/
structure RobloxStatus where
  online : Option Bool
  status : String
  game : Option String
  joinUrl : Option String
  error : Bool
deriving Repr, DecidableEq

/-- Model of `generateJoinUrl` (`roblox-api.js` lines 240-255). -/
def generateJoinUrl (userId : Nat) (presence : Presence) : String :=
  match presence.placeId with
  | some placeId =>
    "https://www.roblox.com/games/start?placeId=" ++ toString placeId ++
      "&launchData=" ++ toString userId
  | none =>
    match presence.rootPlaceId with
    | some rootPlaceId =>
      "https://www.roblox.com/games/start?placeId=" ++ toString rootPlaceId ++
        "&launchData=" ++ toString userId
    | none =>
      "https://www.roblox.com/games/start?placeId=0&launchData=follow%3A" ++ toString userId

/-- The game-name selection in the `case 2` branch of `checkRobloxStatus`:
`lastLocation` if truthy with non-empty trim, else a `universeId` fallback,
else a hidden-details placeholder. -/
def inGameGameName (presence : Presence) : String :=
  if ((presence.lastLocation.getD "").trim == "") = false then
    presence.lastLocation.getD ""
  else
    match presence.universeId with
    | some universeId => "Playing a game (Universe: " ++ toString universeId ++ ")"
    | none => "Playing a game (details hidden)"

/-- Model of `checkRobloxStatus` (`roblox-api.js` lines 262-335).  The
`presence` argument is the result of `getPlayerPresence`, which catches
every network/authentication failure internally and resolves with `null`
(`none`); consequently `checkRobloxStatus` never throws, and every failure
path returns the typed record with `online := none` and `error := true`
(its own catch-all returns the same `online`/`error` shape with status
text "API Error"). -/
def checkRobloxStatus (userId : Nat) (presence : Option Presence) : RobloxStatus :=
  match presence with
  | none =>
    { online := none, status := "Account Private or Not Found",
      game := none, joinUrl := none, error := true }
  | some p =>
    let t := p.userPresenceType
    { online := some (t == 1 || t == 2 || t == 3)
      status :=
        if t == 0 then "Offline"
        else if t == 1 then "Online"
        else if t == 2 then "Online"
        else if t == 3 then "Online"
        else if t == 4 then "Account Private"
        else "Unknown"
      game :=
        if t == 1 then some "Not in game"
        else if t == 2 then some (inGameGameName p)
        else if t == 3 then some "Roblox Studio"
        else none
      joinUrl := if t == 2 then some (generateJoinUrl userId p) else none
      error := false }

/-- Outcome of one `await checkRobloxStatus(...)` inside `checkWithRetry`:
the promise either resolves with a status object (`ok`) or rejects
(`exn`, the `catch` branch). -/
inductive Attempt where
  | ok (status : RobloxStatus)
  | exn
deriving Repr, DecidableEq

/-- Result of one `checkWithRetry` call: the returned status (`none` when
all attempts were exhausted), the value of `watchData.consecutiveErrors`
after the call, the backoff waits performed between attempts (ms), and
whether the five-consecutive-failures warning was logged. -/
structure RetryResult where
  status : Option RobloxStatus
  consecutiveErrors : Nat
  waits : List Nat
  warned : Bool
deriving Repr, DecidableEq

/-- The `for (let attempt = 1; attempt <= maxRetries; attempt++)` loop of
`checkWithRetry` (`watch.js` lines 76-110).  `remaining` counts the
attempts left (`maxRetries - attemptNo + 1`); on success the counter
resets to 0 (the code resets only when it was positive, with the same net
result); on the final failed attempt the counter is incremented and the
warning fires at `≥ 5`; between attempts it waits `5000 * attemptNo` ms. -/
def checkWithRetryGo (outcome : Nat → Attempt) :
    Nat → Nat → Nat → List Nat → RetryResult
  | 0, _, consecutiveErrors, waits =>
    { status := none, consecutiveErrors := consecutiveErrors, waits := waits, warned := false }
  | remaining + 1, attemptNo, consecutiveErrors, waits =>
    match outcome attemptNo with
    | .ok status =>
      { status := some status, consecutiveErrors := 0, waits := waits, warned := false }
    | .exn =>
      if remaining == 0 then
        { status := none, consecutiveErrors := consecutiveErrors + 1, waits := waits,
          warned := decide (consecutiveErrors + 1 ≥ 5) }
      else
        checkWithRetryGo outcome remaining (attemptNo + 1) consecutiveErrors
          (waits ++ [5000 * attemptNo])

/-- Model of `checkWithRetry(watchData, maxRetries = MAX_RETRIES)`.
`outcome k` is what the `k`-th `checkRobloxStatus` call does, and
`consecutiveErrors` is `watchData.consecutiveErrors` on entry. -/
def checkWithRetry (outcome : Nat → Attempt) (consecutiveErrors : Nat) : RetryResult :=
  checkWithRetryGo outcome MAX_RETRIES 1 consecutiveErrors []

/-- Observable effects of one `performCheck` tick: the store afterwards,
the watch record as mutated by the tick, the closure's `currentInterval`
afterwards, whether `saveWatches` ran, whether `sendNotifications` ran,
and the delays of the `setTimeout` timers the tick armed. -/
structure TickResult where
  store : List WatchData
  watch : WatchData
  interval : Nat
  persisted : Bool
  notified : Bool
  nextTimers : List Nat
deriving Repr, DecidableEq

/-- Model of one `performCheck` tick (`watch.js` lines 117-187) for watch
`w` with closure state `currentInterval`, run at time `now` with attempt
outcomes `outcome`.  Notes on fidelity:

* expiry (`now > endTime`): delete, persist, `return` — the `finally`
  block then finds the username gone and arms no timer;
* total check failure (`status` null): the failure branch arms a timer
  and returns, and the `finally` block arms a second one, so two timers
  of the same interval are recorded;
* success: the `consecutiveErrors` reset (and, on failure, the increment)
  happened through the aliased `watchData` object, so the map entry is
  updated in place (`storeUpdate`) even in branches without a
  `activeWatches.set` call; the transition branches additionally call
  `activeWatches.set` (`storeSet`) and `saveWatches`. -/
def performCheck (store : List WatchData) (w : WatchData) (currentInterval : Nat)
    (now : Int) (outcome : Nat → Attempt) : TickResult :=
  if now > w.endTime then
    let store1 := storeDelete store w.username
    { store := store1, watch := w, interval := currentInterval, persisted := true,
      notified := false,
      nextTimers := if storeHas store1 w.username then [currentInterval] else [] }
  else
    let r := checkWithRetry outcome w.consecutiveErrors
    let w1 : WatchData := { w with consecutiveErrors := r.consecutiveErrors }
    let base := storeUpdate store w1
    match r.status with
    | none =>
      { store := base, watch := w1, interval := currentInterval, persisted := false,
        notified := false,
        nextTimers := [currentInterval] ++
          (if storeHas base w1.username then [currentInterval] else []) }
    | some status =>
      let previouslyOnline := w.wasOnline
      let currentlyOnline := status.online == some true
      if currentlyOnline && !previouslyOnline then
        let w2 : WatchData := { w1 with wasOnline := true }
        let store2 := storeSet base w2
        { store := store2, watch := w2, interval := INTERVAL_ONLINE, persisted := true,
          notified := true,
          nextTimers := if storeHas store2 w2.username then [INTERVAL_ONLINE] else [] }
      else if !currentlyOnline && previouslyOnline then
        let w2 : WatchData := { w1 with wasOnline := false }
        let store2 := storeSet base w2
        { store := store2, watch := w2, interval := INTERVAL_OFFLINE, persisted := true,
          notified := false,
          nextTimers := if storeHas store2 w2.username then [INTERVAL_OFFLINE] else [] }
      else
        { store := base, watch := w1, interval := currentInterval, persisted := false,
          notified := false,
          nextTimers := if storeHas base w1.username then [currentInterval] else [] }

/-- Replies the `/watch` command's start path can produce.  The
`rate_limited` reply branch in `watch.js` is unreachable because
`getRobloxUserId` only ever returns a number or `null`, so it is not a
constructor here. -/
inductive StartReply where
  | capacityError
  | alreadyWatching
  | notFound
  | started
deriving Repr, DecidableEq

/-- Model of the start path of `execute` in `watch.js` (lines 309-438):
capacity check first, then the exact-key already-watching check, then
user-id resolution (`resolved` is what `getRobloxUserId` returned), then
the new watch is built from the initial status and inserted.  Every
rejection leaves the store untouched. -/
def executeWatch (store : List WatchData) (username : String) (hours : Nat)
    (resolved : Option Nat) (initialStatus : RobloxStatus) (now : Int) :
    StartReply × List WatchData :=
  if store.length ≥ MAX_CONCURRENT_WATCHES then
    (.capacityError, store)
  else if storeHas store username then
    (.alreadyWatching, store)
  else
    match resolved with
    | none => (.notFound, store)
    | some robloxUserId =>
      let w : WatchData :=
        { username := username, robloxUserId := robloxUserId,
          startTime := now, endTime := now + (hours * 3600000 : Nat),
          wasOnline := initialStatus.online == some true,
          consecutiveErrors := 0 }
      (.started, storeSet store w)

/-- Model of `stopWatch(username)` (`watch.js` lines 276-290): exact-key
`Map.get`; when the watch exists its pending timer is cleared, the entry
is deleted and the snapshot saved (third component).  Returns `false`
without error otherwise. -/
def stopWatch (store : List WatchData) (username : String) :
    Bool × List WatchData × Bool :=
  match storeGet store username with
  | some _ => (true, storeDelete store username, true)
  | none => (false, store, false)

/-- JavaScript `toLowerCase()`, modelled characterwise over the string's
characters (the usernames involved are ASCII). -/
def lowerName (s : String) : List Char := s.data.map Char.toLower

/-- Replies of the `/stopwatch` command (`stopwatch.js`); the
permission branch is outside the modelled scope (the caller is assumed
authorized). -/
inductive StopReply where
  | notWatching
  | stopped
  | failed
deriving Repr, DecidableEq

/-- Model of `execute` in `stopwatch.js` (lines 20-106): the watch is
looked up case-insensitively over the store values, but the actual stop
is `stopWatch(username)` with the requester's spelling. -/
def stopwatchExecute (store : List WatchData) (username : String) :
    StopReply × List WatchData :=
  match store.find? (fun w => lowerName w.username == lowerName username) with
  | none => (.notWatching, store)
  | some _ =>
    let r := stopWatch store username
    if r.1 then (.stopped, r.2.1) else (.failed, r.2.1)

/-- Model of `loadWatches` (`watch.js` lines 32-51): read the snapshot
(`none` = missing/corrupt file, treated as no prior watches), keep
exactly the entries with `endTime` still in the future, and call
`startWatching` on each kept entry.  The second component records the
usernames passed to `startWatching`, in order, one entry per call. -/
def loadWatches (fileData : Option (List WatchData)) (now : Int) :
    List WatchData × List String :=
  match fileData with
  | none => ([], [])
  | some watches =>
    watches.foldl
      (fun acc w =>
        if now < w.endTime then (storeSet acc.1 w, acc.2 ++ [w.username])
        else acc)
      ([], [])

/-- Model of `initialize(client)` (`watch.js` lines 441-452): it awaits
`loadWatches()` — which already called `startWatching` on every restored
watch — and then iterates over `activeWatches` calling `startWatching`
on each watch again. -/
def initializeWatches (fileData : Option (List WatchData)) (now : Int) :
    List WatchData × List String :=
  let r := loadWatches fileData now
  (r.1, r.2 ++ r.1.map (fun w => w.username))

/-- One user record as returned by the remote user-search and
usernames endpoints (`id`, `name`). -/
structure ApiUser where
  id : Nat
  name : String
deriving Repr, DecidableEq

/-- Model of `getRobloxUserId` (`roblox-api.js` lines 123-160).
`searchData` is the search endpoint's `data.data` array (`none` when the
request threw — the surrounding catch returns `null`); `usernamesData`
plays the same role for the fallback usernames endpoint.  An exact
case-insensitive match wins; otherwise the first search result is used;
an empty search falls back to the usernames endpoint's first entry. -/
def getRobloxUserId (username : String) (searchData : Option (List ApiUser))
    (usernamesData : Option (List ApiUser)) : Option Nat :=
  match searchData with
  | none => none
  | some results =>
    match results with
    | [] =>
      match usernamesData with
      | none => none
      | some [] => none
      | some (u :: _) => some u.id
    | first :: rest =>
      match (first :: rest).find? (fun user => lowerName user.name == lowerName username) with
      | some exactMatch => some exactMatch.id
      | none => some first.id

/-- `rateLimitMap.set(userId, now)` — assoc-list `Map.set` for the
per-user rate-limit map of `roblox-api.js`. -/
def mapSet (m : List (String × Int)) (k : String) (v : Int) : List (String × Int) :=
  if m.any (fun p => p.1 == k) then
    m.map (fun p => if p.1 == k then (k, v) else p)
  else
    m ++ [(k, v)]

/-- `rateLimitMap.get(userId)` for the per-user rate-limit map. -/
def lookupLast (m : List (String × Int)) (k : String) : Option Int :=
  (m.find? (fun p => p.1 == k)).map (fun p => p.2)

/-- Model of `checkRateLimit(userId)` (`roblox-api.js` lines 342-352):
deny when this caller's last recorded request (a truthy timestamp, hence
the `≠ 0` guard mirroring `if (lastRequest && ...)`) is less than
`RATE_LIMIT_MS` ago; otherwise record `now` for this caller and allow.
Returns the decision and the map afterwards. -/
def checkRateLimit (m : List (String × Int)) (userId : String) (now : Int) :
    Bool × List (String × Int) :=
  match lookupLast m userId with
  | some lastRequest =>
    if lastRequest ≠ 0 ∧ now - lastRequest < RATE_LIMIT_MS then (false, m)
    else (true, mapSet m userId now)
  | none => (true, mapSet m userId now)

theorem find?_key_mapSetReplace (m : List (String × Int)) (k : String) (v : Int)
    (other : String) (h : (k == other) = false) :
    ((m.map fun p => if p.1 == k then (k, v) else p).find? fun p => p.1 == other) =
      m.find? fun p => p.1 == other := by
  induction m with
  | nil => rfl
  | cons p m ih =>
    simp only [List.map_cons, List.find?_cons]
    by_cases hp : (p.1 == k) = true
    · have hk : p.1 = k := by simpa using hp
      have h2 : (p.1 == other) = false := by rw [hk]; exact h
      have h3 : (((k, v) : String × Int).1 == other) = false := h
      rw [if_pos hp, h3, h2]
      exact ih
    · rw [if_neg hp]
      by_cases hq : (p.1 == other) = true
      · rw [hq]
      · have hq' : (p.1 == other) = false := by simpa using hq
        rw [hq']
        exact ih

theorem find?_key_append_nomatch (m : List (String × Int)) (k : String) (v : Int)
    (other : String) (h : (k == other) = false) :
    (((m ++ [(k, v)]).find? fun p => p.1 == other)) = m.find? fun p => p.1 == other := by
  induction m with
  | nil =>
    have h3 : (((k, v) : String × Int).1 == other) = false := h
    simp only [List.nil_append, List.find?_cons, h3]
  | cons p m ih =>
    simp only [List.cons_append, List.find?_cons]
    by_cases hq : (p.1 == other) = true
    · rw [hq]
    · have hq' : (p.1 == other) = false := by simpa using hq
      rw [hq']
      exact ih

theorem lookupLast_mapSet_other (m : List (String × Int)) (k : String) (v : Int)
    (other : String) (h : (k == other) = false) :
    lookupLast (mapSet m k v) other = lookupLast m other := by
  unfold mapSet lookupLast
  by_cases hm : (m.any fun p => p.1 == k) = true
  · rw [if_pos hm, find?_key_mapSetReplace m k v other h]
  · rw [if_neg hm, find?_key_append_nomatch m k v other h]

/-- Unrolled evaluation of the three-attempt retry loop: the first
resolving attempt returns its status with the error counter reset and
the linear backoff waits accumulated so far; three rejections return a
null status with the counter incremented and the warning at `≥ 5`. -/
theorem checkWithRetry_eval (outcome : Nat → Attempt) (ce : Nat) :
    checkWithRetry outcome ce =
      match outcome 1 with
      | .ok s => ⟨some s, 0, [], false⟩
      | .exn =>
        match outcome 2 with
        | .ok s => ⟨some s, 0, [5000], false⟩
        | .exn =>
          match outcome 3 with
          | .ok s => ⟨some s, 0, [5000, 10000], false⟩
          | .exn => ⟨none, ce + 1, [5000, 10000], decide (ce + 1 ≥ 5)⟩ := by
  cases h1 : outcome 1 <;> cases h2 : outcome 2 <;> cases h3 : outcome 3 <;>
    simp [checkWithRetry, MAX_RETRIES, checkWithRetryGo, h1, h2, h3]

/-! Concrete fixtures used by witnesses and counterexamples. -/

/-- A watch on "alice", last seen offline, expiring at t = 3600000 ms. -/
def watchAliceOffline : WatchData :=
  { username := "alice", robloxUserId := 7, startTime := 0, endTime := 3600000,
    wasOnline := false, consecutiveErrors := 0 }

/-- Same watch, last seen online. -/
def watchAliceOnline : WatchData := { watchAliceOffline with wasOnline := true }

/-- A watch stored under the capitalized key "Alice". -/
def watchCasedAlice : WatchData := { watchAliceOffline with username := "Alice" }

/-- A watch whose end time has already passed at t = 0. -/
def watchExpired : WatchData := { watchAliceOffline with username := "old", endTime := 0 }

/-- A status reporting the target online (presence type 1). -/
def statusOnline : RobloxStatus :=
  { online := some true, status := "Online", game := some "Not in game",
    joinUrl := none, error := false }

/-- A status reporting the target offline (presence type 0). -/
def statusOffline : RobloxStatus :=
  { online := some false, status := "Offline", game := none, joinUrl := none,
    error := false }

/-- A full registry of 20 distinct watches. -/
def fullStore : List WatchData :=
  (List.range MAX_CONCURRENT_WATCHES).map (fun i =>
    { username := "user" ++ toString i, robloxUserId := i, startTime := 0,
      endTime := 3600000, wasOnline := false, consecutiveErrors := 0 })

/-! Claim theorems. -/

/-- Claim C5: once a tick observes `now > endTime`, `performCheck`
removes the watch from the store, persists the store, and arms no
further timer for it — the watch never ticks again. -/
theorem c5_expiry_terminal (store : List WatchData) (w : WatchData)
    (currentInterval : Nat) (now : Int) (outcome : Nat → Attempt)
    (hnow : now > w.endTime) :
    performCheck store w currentInterval now outcome =
      { store := storeDelete store w.username, watch := w,
        interval := currentInterval, persisted := true, notified := false,
        nextTimers := [] } := by
  unfold performCheck
  rw [if_pos hnow]
  simp [storeHas_storeDelete]

/-- Witness for C5: the expiry hypothesis holds at t = 3700000 for the
fixture watch, and the tick empties the store, persists, and arms
nothing. -/
theorem c5_expiry_terminal_witness :
    ((3700000 : Int) > watchAliceOffline.endTime) ∧
      performCheck [watchAliceOffline] watchAliceOffline 600000 3700000 (fun _ => .exn) =
        { store := [], watch := watchAliceOffline, interval := 600000,
          persisted := true, notified := false, nextTimers := [] } := by
  refine ⟨by decide, ?_⟩
  rw [c5_expiry_terminal [watchAliceOffline] watchAliceOffline 600000 3700000
    (fun _ => .exn) (by decide)]
  rfl

/-- Claim C9: stop-watch is idempotent — when the exact username is
registered the first call returns `true` and the second returns `false`;
an unknown username returns `false` with no error and no state change. -/
theorem c9_stopWatch_idempotent (store : List WatchData) (username : String) :
    ((storeGet store username).isSome = true →
      (stopWatch store username).1 = true ∧
      (stopWatch (stopWatch store username).2.1 username).1 = false) ∧
    (storeGet store username = none →
      stopWatch store username = (false, store, false)) := by
  constructor
  · intro h
    match hg : storeGet store username with
    | some w =>
      refine ⟨by simp [stopWatch, hg], ?_⟩
      simp [stopWatch, hg, storeGet_storeDelete]
    | none => rw [hg] at h; simp at h
  · intro h
    simp [stopWatch, h]

/-- Witness for C9 at a concrete store: "alice" is registered, the first
stop returns `true`, the second `false`, and stopping on the empty store
returns `false` unchanged. -/
theorem c9_stopWatch_idempotent_witness :
    (storeGet [watchAliceOffline] "alice").isSome = true ∧
    (stopWatch [watchAliceOffline] "alice").1 = true ∧
    (stopWatch (stopWatch [watchAliceOffline] "alice").2.1 "alice").1 = false ∧
    stopWatch [] "alice" = (false, [], false) :=
  ⟨by decide,
   ((c9_stopWatch_idempotent [watchAliceOffline] "alice").1 (by decide)).1,
   ((c9_stopWatch_idempotent [watchAliceOffline] "alice").1 (by decide)).2,
   (c9_stopWatch_idempotent [] "alice").2 rfl⟩

/-- Claim C6: a start-watch request arriving when the registry already
holds `MAX_CONCURRENT_WATCHES` (20) entries is rejected with the
capacity reply and the registry is left completely unchanged; and no
start-watch request can push the registry above 20 entries. -/
theorem c6_capacity_limit (store : List WatchData) (username : String) (hours : Nat)
    (resolved : Option Nat) (initialStatus : RobloxStatus) (now : Int) :
    (store.length ≥ MAX_CONCURRENT_WATCHES →
      executeWatch store username hours resolved initialStatus now =
        (.capacityError, store)) ∧
    (store.length ≤ MAX_CONCURRENT_WATCHES →
      (executeWatch store username hours resolved initialStatus now).2.length ≤
        MAX_CONCURRENT_WATCHES) := by
  constructor
  · intro h
    unfold executeWatch
    rw [if_pos h]
  · intro h
    unfold executeWatch
    by_cases hc : store.length ≥ MAX_CONCURRENT_WATCHES
    · rw [if_pos hc]
      exact h
    · rw [if_neg hc]
      by_cases hw : storeHas store username = true
      · rw [if_pos hw]
        exact h
      · rw [if_neg hw]
        match resolved with
        | none => exact h
        | some robloxUserId =>
          have hlen := storeSet_length store
            { username := username, robloxUserId := robloxUserId,
              startTime := now, endTime := now + (hours * 3600000 : Nat),
              wasOnline := initialStatus.online == some true,
              consecutiveErrors := 0 }
          simp only [MAX_CONCURRENT_WATCHES] at hc ⊢
          omega

/-- Witness for C6: a 21st request against the 20-entry fixture store is
rejected unchanged, and a request against a 1-entry store keeps the
registry within the cap. -/
theorem c6_capacity_limit_witness :
    fullStore.length ≥ MAX_CONCURRENT_WATCHES ∧
    executeWatch fullStore "bob" 1 (some 99) statusOffline 0 =
      (.capacityError, fullStore) ∧
    (executeWatch [watchAliceOffline] "bob" 1 (some 99) statusOffline 0).2.length ≤
      MAX_CONCURRENT_WATCHES :=
  ⟨by decide,
   (c6_capacity_limit fullStore "bob" 1 (some 99) statusOffline 0).1 (by decide),
   (c6_capacity_limit [watchAliceOffline] "bob" 1 (some 99) statusOffline 0).2 (by decide)⟩

/-- Claim C3 (code bug): restoring a snapshot holding one live watch and
one expired watch reconstructs exactly the live one — but `initialize`
invokes `startWatching` for it twice: once from inside `loadWatches` and
once more from its own loop over `activeWatches`, so the restored watch
runs two concurrent timer loops instead of exactly one. -/
theorem c3_restore_double_schedule :
    initializeWatches (some [watchAliceOffline, watchExpired]) 0 =
      ([watchAliceOffline], ["alice", "alice"]) := by
  rfl

/-- Claim C7 (code bug): the stop command finds the watch stored under
"Alice" when asked to stop "alice" (the lookup is case-insensitive), but
it then calls `stopWatch` with the requester's spelling, whose exact-key
`Map.get` misses — so the command reports failure and the watch stays
registered with its timer intact. -/
theorem c7_case_insensitive_stop_fails :
    stopwatchExecute [watchCasedAlice] "alice" = (.failed, [watchCasedAlice]) ∧
    storeHas [watchCasedAlice] "alice" = false := by
  exact ⟨by decide, by decide⟩

/-- Claim C8 counterexample: a search response containing only the user
"bob" (id 42) makes resolution of "alice" return 42 — the id of a user
whose name does not match the requested username even case-insensitively
— instead of a NotFound result. -/
theorem c8_counterexample :
    getRobloxUserId "alice" (some [{ id := 42, name := "bob" }]) (some []) = some 42 ∧
    (lowerName "bob" == lowerName "alice") = false := by
  exact ⟨by decide, by decide⟩

/-- Claim C8 as amended: resolution returns the id of a search result
whose name matches the requested username case-insensitively when one
exists; otherwise, when the search returned any results, the first
result's id — possibly a different user; an empty search falls back to
the usernames endpoint's first entry; a failed or empty lookup yields
NotFound (`none`), and no typed rate-limited result is ever produced. -/
theorem c8_resolution_behavior (username : String)
    (searchData usernamesData : Option (List ApiUser)) :
    (∀ first rest exactMatch, searchData = some (first :: rest) →
      ((first :: rest).find? fun user => lowerName user.name == lowerName username) =
        some exactMatch →
      getRobloxUserId username searchData usernamesData = some exactMatch.id ∧
      (lowerName exactMatch.name == lowerName username) = true) ∧
    (∀ first rest, searchData = some (first :: rest) →
      ((first :: rest).find? fun user => lowerName user.name == lowerName username) = none →
      getRobloxUserId username searchData usernamesData = some first.id) ∧
    (searchData = none → getRobloxUserId username searchData usernamesData = none) ∧
    (searchData = some [] → usernamesData = none →
      getRobloxUserId username searchData usernamesData = none) ∧
    (searchData = some [] → usernamesData = some [] →
      getRobloxUserId username searchData usernamesData = none) ∧
    (∀ u us, searchData = some [] → usernamesData = some (u :: us) →
      getRobloxUserId username searchData usernamesData = some u.id) := by
  refine ⟨?_, ?_, ?_, ?_, ?_, ?_⟩
  · intro first rest exactMatch hs hf
    subst hs
    have hp := List.find?_some hf
    exact ⟨by simp [getRobloxUserId, hf], hp⟩
  · intro first rest hs hf
    subst hs
    simp [getRobloxUserId, hf]
  · intro hs
    subst hs
    rfl
  · intro hs hu
    subst hs; subst hu
    rfl
  · intro hs hu
    subst hs; subst hu
    rfl
  · intro u us hs hu
    subst hs; subst hu
    rfl

/-- Witness for the amended C8: with search results ["bob", "Alice"],
resolving "alice" picks the case-insensitive exact match (id 5), and a
thrown search yields NotFound. -/
theorem c8_resolution_behavior_witness :
    getRobloxUserId "alice" (some [{ id := 42, name := "bob" }, { id := 5, name := "Alice" }])
      none = some 5 ∧
    getRobloxUserId "alice" none none = none :=
  ⟨((c8_resolution_behavior "alice"
      (some [{ id := 42, name := "bob" }, { id := 5, name := "Alice" }]) none).1
      { id := 42, name := "bob" } [{ id := 5, name := "Alice" }] { id := 5, name := "Alice" }
      rfl (by decide)).1,
   (c8_resolution_behavior "alice" none none).2.2.1 rfl⟩

/-- Claim C2 counterexample: with caller "A"'s request recorded at
t = 1000 ms, a request by caller "B" at t = 1001 ms — inside what the
claim describes as a process-wide suspension window — proceeds
immediately, while "A"'s own request at the same instant is denied
outright rather than made to wait: the rate-limit state is keyed
per caller and is never driven by a "too many requests" response, so no
process-wide suspension of all outbound requests exists. -/
theorem c2_counterexample :
    (checkRateLimit [("A", 1000)] "B" 1001).1 = true ∧
    (checkRateLimit [("A", 1000)] "A" 1001).1 = false := by
  exact ⟨by decide, by decide⟩

/-- Claim C2 as amended: the client's rate limiting is a per-caller
cooldown gate, not a response-driven global suspension — a caller whose
last recorded request is a truthy timestamp less than RATE_LIMIT_MS
(5000 ms) old is denied immediately (no waiting) with the map unchanged;
otherwise the request is allowed and its time recorded; and one caller's
requests never change another caller's recorded state. -/
theorem c2_per_caller_cooldown (m : List (String × Int)) (userId : String) (now : Int) :
    (∀ lastRequest, lookupLast m userId = some lastRequest → lastRequest ≠ 0 →
      now - lastRequest < RATE_LIMIT_MS →
      checkRateLimit m userId now = (false, m)) ∧
    (∀ lastRequest, lookupLast m userId = some lastRequest →
      RATE_LIMIT_MS ≤ now - lastRequest →
      checkRateLimit m userId now = (true, mapSet m userId now)) ∧
    (lookupLast m userId = none →
      checkRateLimit m userId now = (true, mapSet m userId now)) ∧
    (∀ other, (userId == other) = false →
      lookupLast (checkRateLimit m userId now).2 other = lookupLast m other) := by
  refine ⟨?_, ?_, ?_, ?_⟩
  · intro lastRequest hl h0 hlt
    unfold checkRateLimit
    simp only [hl]
    rw [if_pos ⟨h0, hlt⟩]
  · intro lastRequest hl hge
    unfold checkRateLimit
    simp only [hl]
    rw [if_neg (by rintro ⟨-, hlt⟩; omega)]
  · intro hl
    unfold checkRateLimit
    simp only [hl]
  · intro other hother
    unfold checkRateLimit
    cases hl : lookupLast m userId with
    | none =>
      simp only [hl]
      exact lookupLast_mapSet_other m userId now other hother
    | some lastRequest =>
      simp only [hl]
      by_cases hc : lastRequest ≠ 0 ∧ now - lastRequest < RATE_LIMIT_MS
      · rw [if_pos hc]
      · rw [if_neg hc]
        exact lookupLast_mapSet_other m userId now other hother

/-- Witness for the amended C2 at a concrete map: "A" requested 1 ms ago,
so "A" is denied with the map unchanged, and "B"'s recorded state is
untouched by "A"'s attempt. -/
theorem c2_per_caller_cooldown_witness :
    lookupLast [("A", (1000 : Int))] "A" = some 1000 ∧
    checkRateLimit [("A", (1000 : Int))] "A" 1001 = (false, [("A", (1000 : Int))]) ∧
    lookupLast (checkRateLimit [("A", (1000 : Int))] "A" 1001).2 "B" =
      lookupLast [("A", (1000 : Int))] "B" :=
  ⟨by decide,
   (c2_per_caller_cooldown [("A", (1000 : Int))] "A" 1001).1 1000 (by decide)
     (by decide) (by decide),
   (c2_per_caller_cooldown [("A", (1000 : Int))] "A" 1001).2.2.2 "B" (by decide)⟩

/-- Claim C1: for a tick whose presence check succeeds (the retry wrapper
returned a status object): when the previous `wasOnline` is false and the
new state is online, the tick sets `wasOnline := true`, persists the
store, invokes the notification dispatcher and schedules the next tick at
INTERVAL_ONLINE (60 s); when the previous `wasOnline` is true and the new
state is offline, it sets `wasOnline := false`, persists, does not
notify, and schedules at INTERVAL_OFFLINE (600 s); when the state is
unchanged, it neither persists nor notifies and reschedules at the
unchanged current interval. -/
theorem c1_transition_intervals (store : List WatchData) (w : WatchData)
    (currentInterval : Nat) (now : Int) (outcome : Nat → Attempt)
    (status : RobloxStatus)
    (hnow : ¬ now > w.endTime)
    (hmem : storeHas store w.username = true)
    (hstatus : (checkWithRetry outcome w.consecutiveErrors).status = some status) :
    (status.online = some true → w.wasOnline = false →
      (performCheck store w currentInterval now outcome).watch.wasOnline = true ∧
      (performCheck store w currentInterval now outcome).persisted = true ∧
      (performCheck store w currentInterval now outcome).notified = true ∧
      (performCheck store w currentInterval now outcome).interval = INTERVAL_ONLINE ∧
      (performCheck store w currentInterval now outcome).nextTimers = [INTERVAL_ONLINE]) ∧
    (status.online = some false → w.wasOnline = true →
      (performCheck store w currentInterval now outcome).watch.wasOnline = false ∧
      (performCheck store w currentInterval now outcome).persisted = true ∧
      (performCheck store w currentInterval now outcome).notified = false ∧
      (performCheck store w currentInterval now outcome).interval = INTERVAL_OFFLINE ∧
      (performCheck store w currentInterval now outcome).nextTimers = [INTERVAL_OFFLINE]) ∧
    (status.online = some w.wasOnline →
      (performCheck store w currentInterval now outcome).persisted = false ∧
      (performCheck store w currentInterval now outcome).notified = false ∧
      (performCheck store w currentInterval now outcome).interval = currentInterval ∧
      (performCheck store w currentInterval now outcome).nextTimers = [currentInterval]) := by
  unfold performCheck
  rw [if_neg hnow]
  refine ⟨?_, ?_, ?_⟩
  · intro ho hw
    simp [hstatus, ho, hw, storeHas_storeSet]
  · intro ho hw
    simp [hstatus, ho, hw, storeHas_storeSet]
  · intro ho
    cases hw : w.wasOnline with
    | true =>
      rw [hw] at ho
      simp [hstatus, ho, hw, storeHas_storeUpdate, hmem]
    | false =>
      rw [hw] at ho
      simp [hstatus, ho, hw, storeHas_storeUpdate, hmem]

/-- Witness for C1: an offline watch whose check reports online
transitions to `wasOnline = true` with persist, notification and a 60 s
next tick. -/
theorem c1_transition_intervals_witness :
    statusOnline.online = some true ∧ watchAliceOffline.wasOnline = false ∧
    ((performCheck [watchAliceOffline] watchAliceOffline 600000 0
        (fun _ => .ok statusOnline)).watch.wasOnline = true ∧
      (performCheck [watchAliceOffline] watchAliceOffline 600000 0
        (fun _ => .ok statusOnline)).persisted = true ∧
      (performCheck [watchAliceOffline] watchAliceOffline 600000 0
        (fun _ => .ok statusOnline)).notified = true ∧
      (performCheck [watchAliceOffline] watchAliceOffline 600000 0
        (fun _ => .ok statusOnline)).interval = INTERVAL_ONLINE ∧
      (performCheck [watchAliceOffline] watchAliceOffline 600000 0
        (fun _ => .ok statusOnline)).nextTimers = [INTERVAL_ONLINE]) :=
  ⟨rfl, rfl,
   (c1_transition_intervals [watchAliceOffline] watchAliceOffline 600000 0
      (fun _ => .ok statusOnline) statusOnline (by decide) (by decide) rfl).1 rfl rfl⟩

/-- Claim C4: the retry policy — the first resolving attempt (of up to 3)
returns its status with `consecutiveErrors` reset to 0 and waits of
`5000 ms × attemptNumber` between the earlier failed attempts; only when all 3
attempts throw does the tick count as failed, with `consecutiveErrors`
incremented, the warning signal exactly when the counter reaches 5, the
watch kept alive, and the interval unchanged. -/
theorem c4_retry_policy (outcome : Nat → Attempt) (s : RobloxStatus)
    (store : List WatchData) (w : WatchData) (currentInterval : Nat) (now : Int) :
    (outcome 1 = .ok s →
      checkWithRetry outcome w.consecutiveErrors = ⟨some s, 0, [], false⟩) ∧
    (outcome 1 = .exn → outcome 2 = .ok s →
      checkWithRetry outcome w.consecutiveErrors = ⟨some s, 0, [5000], false⟩) ∧
    (outcome 1 = .exn → outcome 2 = .exn → outcome 3 = .ok s →
      checkWithRetry outcome w.consecutiveErrors = ⟨some s, 0, [5000, 10000], false⟩) ∧
    (outcome 1 = .exn → outcome 2 = .exn → outcome 3 = .exn →
      checkWithRetry outcome w.consecutiveErrors =
        ⟨none, w.consecutiveErrors + 1, [5000, 10000],
          decide (w.consecutiveErrors + 1 ≥ 5)⟩ ∧
      (¬ now > w.endTime → storeHas store w.username = true →
        (performCheck store w currentInterval now outcome).watch.consecutiveErrors =
          w.consecutiveErrors + 1 ∧
        (performCheck store w currentInterval now outcome).interval = currentInterval ∧
        (performCheck store w currentInterval now outcome).persisted = false ∧
        storeHas (performCheck store w currentInterval now outcome).store w.username = true ∧
        (performCheck store w currentInterval now outcome).nextTimers =
          [currentInterval, currentInterval])) := by
  refine ⟨?_, ?_, ?_, ?_⟩
  · intro h1
    rw [checkWithRetry_eval, h1]
  · intro h1 h2
    rw [checkWithRetry_eval, h1, h2]
  · intro h1 h2 h3
    rw [checkWithRetry_eval, h1, h2, h3]
  · intro h1 h2 h3
    have hr : checkWithRetry outcome w.consecutiveErrors =
        ⟨none, w.consecutiveErrors + 1, [5000, 10000],
          decide (w.consecutiveErrors + 1 ≥ 5)⟩ := by
      rw [checkWithRetry_eval, h1, h2, h3]
    refine ⟨hr, ?_⟩
    intro hnow hmem
    unfold performCheck
    rw [if_neg hnow]
    simp [hr, storeHas_storeUpdate, hmem]

/-- Witness for C4: with every attempt throwing and a zero counter, the
retry wrapper returns a null status with counter 1, waits 5 s then 10 s,
no warning; the surrounding tick keeps the watch, the interval, and arms
its (duplicated) timers at the same interval. -/
theorem c4_retry_policy_witness :
    checkWithRetry (fun _ => .exn) watchAliceOffline.consecutiveErrors =
      ⟨none, watchAliceOffline.consecutiveErrors + 1, [5000, 10000],
        decide (watchAliceOffline.consecutiveErrors + 1 ≥ 5)⟩ ∧
    (performCheck [watchAliceOffline] watchAliceOffline 600000 0 (fun _ => .exn)).interval
      = 600000 ∧
    (performCheck [watchAliceOffline] watchAliceOffline 600000 0
      (fun _ => .exn)).persisted = false :=
  ⟨((c4_retry_policy (fun _ => .exn) statusOffline [watchAliceOffline] watchAliceOffline
      600000 0).2.2.2 rfl rfl rfl).1,
   (((c4_retry_policy (fun _ => .exn) statusOffline [watchAliceOffline] watchAliceOffline
      600000 0).2.2.2 rfl rfl rfl).2 (by decide) (by decide)).2.1,
   (((c4_retry_policy (fun _ => .exn) statusOffline [watchAliceOffline] watchAliceOffline
      600000 0).2.2.2 rfl rfl rfl).2 (by decide) (by decide)).2.2.1⟩

/-- Claim C10: `checkRobloxStatus` never throws — with no presence data it
returns the typed object with `online = null` and `error = true` — and the
scheduler treats that object as a completed check reporting not-online:
the retry wrapper returns it on the first attempt with
`consecutiveErrors` reset to 0 and no backoff waits, and a tick of a
watch with `wasOnline = true` performs a true→false transition: `wasOnline`
set to false, store persisted, no notification, interval switched to
INTERVAL_OFFLINE — even though no presence data was obtained. -/
theorem c10_error_object_counts_as_offline (userId : Nat) (store : List WatchData)
    (w : WatchData) (currentInterval : Nat) (now : Int) (outcome : Nat → Attempt) :
    checkRobloxStatus userId none =
      { online := none, status := "Account Private or Not Found",
        game := none, joinUrl := none, error := true } ∧
    (outcome 1 = .ok (checkRobloxStatus userId none) →
      checkWithRetry outcome w.consecutiveErrors =
        { status := some (checkRobloxStatus userId none), consecutiveErrors := 0,
          waits := [], warned := false } ∧
      (¬ now > w.endTime → w.wasOnline = true →
        (performCheck store w currentInterval now outcome).watch.consecutiveErrors = 0 ∧
        (performCheck store w currentInterval now outcome).watch.wasOnline = false ∧
        (performCheck store w currentInterval now outcome).persisted = true ∧
        (performCheck store w currentInterval now outcome).notified = false ∧
        (performCheck store w currentInterval now outcome).interval = INTERVAL_OFFLINE)) := by
  refine ⟨rfl, ?_⟩
  intro h1
  have hr : checkWithRetry outcome w.consecutiveErrors =
      { status := some (checkRobloxStatus userId none), consecutiveErrors := 0,
        waits := [], warned := false } := by
    rw [checkWithRetry_eval, h1]
  refine ⟨hr, ?_⟩
  intro hnow hw
  unfold performCheck
  rw [if_neg hnow]
  simp [hr, hw, checkRobloxStatus, storeHas_storeSet]

/-- Witness for C10: a watch last seen online whose check yields the
no-presence error object flips to offline with persist, a zeroed error
counter, and the 600 s interval. -/
theorem c10_error_object_counts_as_offline_witness :
    watchAliceOnline.wasOnline = true ∧
    ((performCheck [watchAliceOnline] watchAliceOnline 60000 0
        (fun _ => .ok (checkRobloxStatus 7 none))).watch.consecutiveErrors = 0 ∧
      (performCheck [watchAliceOnline] watchAliceOnline 60000 0
        (fun _ => .ok (checkRobloxStatus 7 none))).watch.wasOnline = false ∧
      (performCheck [watchAliceOnline] watchAliceOnline 60000 0
        (fun _ => .ok (checkRobloxStatus 7 none))).persisted = true ∧
      (performCheck [watchAliceOnline] watchAliceOnline 60000 0
        (fun _ => .ok (checkRobloxStatus 7 none))).notified = false ∧
      (performCheck [watchAliceOnline] watchAliceOnline 60000 0
        (fun _ => .ok (checkRobloxStatus 7 none))).interval = INTERVAL_OFFLINE) :=
  ⟨rfl,
   ((c10_error_object_counts_as_offline 7 [watchAliceOnline] watchAliceOnline 60000 0
      (fun _ => .ok (checkRobloxStatus 7 none))).2 rfl).2 (by decide) rfl⟩

end WarrantBot
